import Mathlib

/-!
Shallow embedding of the CRUSH-clothing storefront core:
the server-side Shopify config route (`src/server/routes.ts`) and the
client-side catalog bootstrap / checkout-initiation flow
(`src/client/src/App.tsx`).  Pure functions are translated directly;
the two stateful flows (`initializeAndLoad`, `startCheckout`) are
modelled as functions from an explicit environment (the mocked results
of the external collaborator's operations) to a result record that
carries the final component state together with the observable side
effects (calls made, navigation, alerts, logs).
-/

set_option autoImplicit false

/-- A JavaScript value as it can reach `formatPrice`: a string, a number
(only integers arise: the literal `0` fallback), or `undefined`
(from `p.variants[0]?.price.amount` on a variant-less product). -/
inductive JsVal where
  | str : String → JsVal
  | num : Int → JsVal
  | undef : JsVal
deriving DecidableEq

/-- JavaScript truthiness test on the values of `JsVal`: `undefined`,
`""`, and `0` are falsy. -/
def jsFalsy : JsVal → Bool
  | .undef => true
  | .str s => s == ""
  | .num n => n == 0

/-- The JavaScript `String(·)` conversion restricted to `JsVal`. -/
def jsToString : JsVal → String
  | .str s => s
  | .num n => toString n
  | .undef => "undefined"

/-- Digit list to natural number, most significant digit first. -/
def digitsToNat (l : List Char) : Nat :=
  l.foldl (fun a c => a * 10 + (c.toNat - 48)) 0

/-- Powers of ten, by explicit recursion so that the kernel evaluates
them. -/
def pow10 : Nat → Nat
  | 0 => 1
  | k + 1 => 10 * pow10 k

/-- An exact decimal number: the value `num / 10 ^ scale`.  This
represents the result of parsing a plain decimal string without any
rounding. -/
structure DecimalNum where
  num : Int
  scale : Nat
deriving DecidableEq

/-- Model of JavaScript `parseFloat` on plain decimal notation (optional
leading whitespace, optional sign, digits, optional fractional part;
parsing stops at the first character that cannot continue the number).
Returns `none` where JavaScript returns `NaN` (no digits at all), and
otherwise the exact decimal value as a `DecimalNum`.  Exponent notation
and `Infinity` are outside the model's scope; the price strings of this
program are plain decimals. -/
def jsParseFloat (s : String) : Option DecimalNum :=
  let l := s.data.dropWhile fun c => c == ' ' || c == '\t' || c == '\n' || c == '\r'
  let signRest : Int × List Char :=
    match l with
    | '-' :: rest => (-1, rest)
    | '+' :: rest => (1, rest)
    | _ => (1, l)
  let intDs := signRest.2.takeWhile Char.isDigit
  let afterInt := signRest.2.drop intDs.length
  let fracDs :=
    match afterInt with
    | '.' :: rest => rest.takeWhile Char.isDigit
    | _ => []
  if intDs.isEmpty && fracDs.isEmpty then none
  else
    some
      { num := signRest.1 *
          ((digitsToNat intDs * pow10 fracDs.length + digitsToNat fracDs : Nat) : Int)
        scale := fracDs.length }

/-- Left-pad a two-digit fractional field with a zero. -/
def pad2 (k : Nat) : String :=
  if k < 10 then "0" ++ toString k else toString k

/-- Model of JavaScript `Number.prototype.toFixed(2)`: `NaN` prints as
`"NaN"`; otherwise round the value `q = num / 10 ^ scale` to the
nearest hundredth, ties towards the larger value (i.e.
`⌊100q + 1/2⌋ = ⌊(200 num + 10^scale) / (2 · 10^scale)⌋`), and print
with exactly two fractional digits.  (Negative zero printing is
outside the model's scope; no negative price arises.) -/
def toFixed2 : Option DecimalNum → String
  | none => "NaN"
  | some d =>
    let n : Int := Int.fdiv (200 * d.num + (pow10 d.scale : Int)) (2 * (pow10 d.scale : Int))
    let sign := if n < 0 then "-" else ""
    sign ++ toString (n.natAbs / 100) ++ "." ++ pad2 (n.natAbs % 100)

/-- `formatPrice` from `App.tsx`:
`const n = parseFloat(String(amount || 0)); return \x24{n.toFixed(2)}`,
with the leading dollar sign. -/
def formatPrice (amount : JsVal) : String :=
  let v := if jsFalsy amount then JsVal.num 0 else amount
  "$" ++ toFixed2 (jsParseFloat (jsToString v))

/-- Model of JavaScript `String.prototype.replace` with a non-empty
string pattern on the underlying character list: replace the leftmost
occurrence of `pat` (if any) by `rep`, leave the rest unchanged. -/
def firstReplace (pat rep : List Char) : List Char → List Char
  | [] => []
  | c :: cs =>
    if pat.isPrefixOf (c :: cs) then rep ++ (c :: cs).drop pat.length
    else c :: firstReplace pat rep cs

/-- String-level wrapper of `firstReplace`. -/
def replaceFirstStr (s pat rep : String) : String :=
  ⟨firstReplace pat.data rep.data s.data⟩

/-- Whether `pat` occurs as a contiguous sublist of the argument. -/
def containsSub (pat : List Char) : List Char → Bool
  | [] => false
  | c :: cs => pat.isPrefixOf (c :: cs) || containsSub pat cs

/-- A Shopify variant as mapped by the client: id, price (decimal-string
amount) and title. -/
structure ShopifyVariant where
  id : String
  price_amount : String
  title : String
deriving DecidableEq

/-- A display-ready product as mapped by `initializeAndLoad`. -/
structure Product where
  id : String
  title : String
  description : String
  handle : String
  images : List String
  variants : List ShopifyVariant
deriving DecidableEq

/-- A raw image record from the platform (only `src` is read). -/
structure RawImage where
  src : String
deriving DecidableEq

/-- A raw variant record from the platform (only the three read fields
are modelled). -/
structure RawVariant where
  id : String
  price_amount : String
  title : String
deriving DecidableEq

/-- A raw product record from the platform. -/
structure RawProduct where
  id : String
  title : String
  description : String
  handle : String
  images : List RawImage
  variants : List RawVariant
deriving DecidableEq

/-- The per-record mapping inside `initializeAndLoad`: extract image
URLs and project each variant to `{id, price, title}`. -/
def mapProduct (p : RawProduct) : Product :=
  { id := p.id
    title := p.title
    description := p.description
    handle := p.handle
    images := p.images.map RawImage.src
    variants := p.variants.map fun v => ⟨v.id, v.price_amount, v.title⟩ }

/-- The JSON document returned by `/api/config/shopify`; both fields may
be empty strings.  A field can also be missing entirely from the parsed
object (`undefined`), which the client's falsy check treats like empty. -/
structure StoreConfig where
  domain : Option String
  storefrontAccessToken : Option String
deriving DecidableEq

/-- JavaScript falsiness of an optional string field: missing or empty. -/
def jsFalsyStr : Option String → Bool
  | none => true
  | some s => s == ""

/-- The Shopify client handle as built by `Client.buildClient`. -/
structure ClientHandle where
  domain : String
  storefrontAccessToken : String
  apiVersion : String
deriving DecidableEq

/-- `Client.buildClient({domain: config.domain.replace("https://", ""),
storefrontAccessToken, apiVersion: '2024-01'})` from `App.tsx`. -/
def buildClient (domain token : String) : ClientHandle :=
  { domain := replaceFirstStr domain "https://" ""
    storefrontAccessToken := token
    apiVersion := "2024-01" }

/-- Mocked environment for one bootstrap run: the result of the config
fetch (`fetch('/api/config/shopify')` + `.json()`, which may throw),
and the result of the catalog step (`client.product.fetchAll()`
together with the subsequent mapping; a rejection or a throw while
mapping both surface here as `Except.error`, since both are caught by
the same `try`/`catch`). -/
structure BootstrapEnv where
  fetchConfig : Except String StoreConfig
  fetchCatalog : Except String (List RawProduct)

/-- The component state and observable effects after one run of
`initializeAndLoad`: the `products`/`featured`/`loading`/`configError`
React state, the module-level `client` variable, and trace flags for
whether `Client.buildClient` and `client.product.fetchAll()` were
reached. -/
structure BootResult where
  products : List Product
  featured : List Product
  loading : Bool
  configError : Bool
  client : Option ClientHandle
  clientConstructed : Bool
  catalogFetchAttempted : Bool
deriving DecidableEq

/-- `initializeAndLoad` from `App.tsx`, as a function of the mocked
environment.  State starts at the React initial values
(`products = []`, `featured = []`, `client = null`); the function sets
`loading` true, fetches the config, short-circuits to the
configuration-error state on a falsy `domain` or
`storefrontAccessToken`, otherwise builds the client, fetches and maps
the catalog, and partitions it into `products` and `featured`
(`mapped.slice(0, 3)`).  Any throw is caught and sets `configError`. -/
def initializeAndLoad (env : BootstrapEnv) : BootResult :=
  match env.fetchConfig with
  | .error _ =>
      { products := [], featured := [], loading := false, configError := true
        client := none, clientConstructed := false, catalogFetchAttempted := false }
  | .ok config =>
    if jsFalsyStr config.domain || jsFalsyStr config.storefrontAccessToken then
      { products := [], featured := [], loading := false, configError := true
        client := none, clientConstructed := false, catalogFetchAttempted := false }
    else
      let c := buildClient (config.domain.getD "") (config.storefrontAccessToken.getD "")
      match env.fetchCatalog with
      | .error _ =>
          { products := [], featured := [], loading := false, configError := true
            client := some c, clientConstructed := true, catalogFetchAttempted := true }
      | .ok prods =>
          let mapped := prods.map mapProduct
          { products := mapped, featured := mapped.take 3, loading := false
            configError := false, client := some c, clientConstructed := true
            catalogFetchAttempted := true }

/-- What the Shop section of `AppContent` renders: the loading
indicator (`loading && ...`), the explicit no-products indicator
(`!loading && products.length === 0 && ...`), and one card per product
(`products.map(...)`). -/
structure ShopSection where
  showLoading : Bool
  showNoProducts : Bool
  cards : List Product
deriving DecidableEq

/-- Render decision of the Shop section as a function of the bootstrap
result. -/
def renderShop (r : BootResult) : ShopSection :=
  { showLoading := r.loading
    showNoProducts := !r.loading && r.products.length == 0
    cards := r.products }

/-- The price string rendered on a product card:
`formatPrice(p.variants[0]?.price.amount)` — optional chaining yields
`undefined` when the variants list is empty. -/
def firstVariantAmount (p : Product) : JsVal :=
  match p.variants with
  | [] => .undef
  | v :: _ => .str v.price_amount

/-- The displayed price of a product card. -/
def renderedPrice (p : Product) : String :=
  formatPrice (firstVariantAmount p)

/-- A checkout session as returned by the platform. -/
structure Checkout where
  id : String
  webUrl : String
deriving DecidableEq

/-- A line item `{variantId, quantity}`. -/
structure LineItem where
  variantId : String
  quantity : Nat
deriving DecidableEq

/-- Mocked platform collaborator for `startCheckout`:
`client.checkout.create()` and
`client.checkout.addLineItems(checkoutId, lineItems)`, each either
resolving or rejecting. -/
structure CheckoutEnv where
  create : Except String Checkout
  addLineItems : String → List LineItem → Except String Checkout

/-- Observable outcome of one `startCheckout` invocation: how many
session-create calls were made, every line-item-add call with its
arguments, the navigation target assigned to `window.location.href`
(if any), the `alert` message shown (if any), and the error logged via
`console.error` (if any). -/
structure CheckoutResult where
  createCalls : Nat
  addCalls : List (String × List LineItem)
  navigatedTo : Option String
  alerted : Option String
  logged : Option String
deriving DecidableEq

/-- `startCheckout(variantId, qty)` from `App.tsx`, as a function of
the module-level `client` and the mocked collaborator.  A null client
alerts and returns before any platform call; otherwise one session is
created, one line-item list `[{variantId, quantity: qty}]` is added,
and on success the browser navigates to `updated.webUrl`; a rejection
of either call is caught, logged, and alerted without navigating. -/
def startCheckout (client : Option ClientHandle) (env : CheckoutEnv)
    (variantId : String) (qty : Nat) : CheckoutResult :=
  match client with
  | none =>
      { createCalls := 0, addCalls := [], navigatedTo := none
        alerted := some "Shopify client not initialized", logged := none }
  | some _ =>
    match env.create with
    | .error e =>
        { createCalls := 1, addCalls := [], navigatedTo := none
          alerted := some "Could not start checkout. Check console for details."
          logged := some e }
    | .ok checkout =>
      let lineItemsToAdd := [⟨variantId, qty⟩]
      match env.addLineItems checkout.id lineItemsToAdd with
      | .error e =>
          { createCalls := 1, addCalls := [(checkout.id, lineItemsToAdd)]
            navigatedTo := none
            alerted := some "Could not start checkout. Check console for details."
            logged := some e }
      | .ok updated =>
          { createCalls := 1, addCalls := [(checkout.id, lineItemsToAdd)]
            navigatedTo := some updated.webUrl, alerted := none, logged := none }

/-- The process environment read by the config route: the two Shopify
environment variables, each possibly unset. -/
structure ProcessEnv where
  SHOPIFY_STORE_DOMAIN : Option String
  SHOPIFY_STOREFRONT_ACCESS_TOKEN : Option String
deriving DecidableEq

/-- JavaScript `a || b` on an optional string against a string default:
missing or empty yields the default. -/
def jsOrStr (a : Option String) (b : String) : String :=
  match a with
  | none => b
  | some s => if s == "" then b else s

/-- The JSON body sent by `GET /api/config/shopify`: exactly the two
fields `domain` and `storefrontAccessToken`. -/
structure ShopifyConfigBody where
  domain : String
  storefrontAccessToken : String
deriving DecidableEq

/-- An HTTP response of the config route: status plus JSON body. -/
structure HttpResponse where
  status : Nat
  body : ShopifyConfigBody
deriving DecidableEq

/-- The `/api/config/shopify` handler from `routes.ts`:
`res.json({domain: process.env.SHOPIFY_STORE_DOMAIN || "",
storefrontAccessToken: process.env.SHOPIFY_STOREFRONT_ACCESS_TOKEN || ""})`;
`res.json` without an explicit status sends 200. -/
def getShopifyConfigHandler (env : ProcessEnv) : HttpResponse :=
  { status := 200
    body :=
      { domain := jsOrStr env.SHOPIFY_STORE_DOMAIN ""
        storefrontAccessToken := jsOrStr env.SHOPIFY_STOREFRONT_ACCESS_TOKEN "" } }

/-- Modelled from the spec (the spec's words for claim C8, for contrast
with `buildClient` which is translated from the source): remove any URL
scheme prefix, i.e. a leading run of letters followed by `://`, from
the domain. -/
def stripSchemeSpec (s : String) : String :=
  let l := s.data
  let pre := l.takeWhile Char.isAlpha
  let post := l.drop pre.length
  if !pre.isEmpty && [':', '/', '/'].isPrefixOf post then ⟨post.drop 3⟩ else s

/-- On the empty default, the JavaScript `||` fallback agrees with
`Option.getD`. -/
theorem jsOrStr_empty_default (a : Option String) : jsOrStr a "" = a.getD "" := by
  cases a with
  | none => rfl
  | some s =>
    by_cases h : s = ""
    · simp [jsOrStr, h]
    · simp [jsOrStr, h]

/-- C3 counterexample: the claim says every malformed numeric string
falls back to formatting the value 0 (i.e. renders `"$0.00"`), but the
non-empty unparseable string `"abc"` is truthy, is fed to `parseFloat`
unchanged, parses to `NaN`, and renders as `"$NaN"`. -/
theorem c3_format_price_counterexample :
    formatPrice (JsVal.str "abc") = "$NaN" ∧ formatPrice (JsVal.str "abc") ≠ "$0.00" := by
  decide

/-- C3 (amended): `"19.5"` renders as `"$19.50"`; `"0"`, a missing
amount, and the empty string all render as `"$0.00"`; formatting is a
total function (it cannot throw); but the fallback to 0 applies only to
falsy inputs — a non-empty string that does not parse as a number
renders as `"$NaN"` rather than falling back to 0. -/
theorem c3_format_price_amended (s : String) (hs : ¬ s = "")
    (hp : jsParseFloat s = none) :
    formatPrice (JsVal.str "19.5") = "$19.50" ∧
    formatPrice (JsVal.str "0") = "$0.00" ∧
    formatPrice JsVal.undef = "$0.00" ∧
    formatPrice (JsVal.str "") = "$0.00" ∧
    formatPrice (JsVal.str s) = "$NaN" := by
  refine ⟨by decide, by decide, by decide, by decide, ?_⟩
  have hfalsy : jsFalsy (JsVal.str s) = false := by
    simp [jsFalsy]
    exact hs
  simp only [formatPrice, hfalsy, Bool.false_eq_true, if_false, jsToString, hp, toFixed2]
  decide

/-- C3 witness: the amended statement at the concrete malformed string
`"abc"`. -/
theorem c3_format_price_amended_witness :
    formatPrice (JsVal.str "19.5") = "$19.50" ∧
    formatPrice (JsVal.str "0") = "$0.00" ∧
    formatPrice JsVal.undef = "$0.00" ∧
    formatPrice (JsVal.str "") = "$0.00" ∧
    formatPrice (JsVal.str "abc") = "$NaN" :=
  c3_format_price_amended "abc" (by decide) (by rfl)

/-- C9: a product with an empty variants list renders its price without
throwing — the optional chaining yields an absent amount, and the
displayed price is `"$0.00"`. -/
theorem c9_empty_variants_price (p : Product) (h : p.variants = []) :
    renderedPrice p = "$0.00" := by
  unfold renderedPrice firstVariantAmount
  rw [h]
  decide

/-- C9 witness: a concrete variant-less product renders `"$0.00"`. -/
theorem c9_empty_variants_price_witness :
    renderedPrice ⟨"p1", "Tee", "desc", "tee", [], []⟩ = "$0.00" :=
  c9_empty_variants_price ⟨"p1", "Tee", "desc", "tee", [], []⟩ rfl

/-- C5: calling `startCheckout` while the client handle is absent makes
no platform call at all (zero session-create calls, zero line-item-add
calls), does not navigate, and surfaces the alert before returning. -/
theorem c5_checkout_client_absent (env : CheckoutEnv) (variantId : String) (qty : Nat) :
    startCheckout none env variantId qty =
      { createCalls := 0, addCalls := [], navigatedTo := none
        alerted := some "Shopify client not initialized", logged := none } := rfl

/-- C7: for every process environment, the config route answers 200
with a body holding exactly the fields `domain` and
`storefrontAccessToken`, each the environment variable's value when set
and `""` when unset; the handler is a total function (no error path)
and performs no validation. -/
theorem c7_config_route (env : ProcessEnv) :
    (getShopifyConfigHandler env).status = 200 ∧
    (getShopifyConfigHandler env).body =
      ⟨env.SHOPIFY_STORE_DOMAIN.getD "", env.SHOPIFY_STOREFRONT_ACCESS_TOKEN.getD ""⟩ := by
  refine ⟨rfl, ?_⟩
  simp only [getShopifyConfigHandler, jsOrStr_empty_default]

/-- C1: a successful bootstrap (truthy config fields, catalog fetch
resolving with N products) stores exactly the N mapped products in the
platform's order as the catalog list, the first min(N,3) of them in the
same order as the featured list, and for N = 0 the Shop section shows
the explicit no-products indicator over an empty grid. -/
theorem c1_catalog_partition (cfg : StoreConfig) (prods : List RawProduct)
    (hd : jsFalsyStr cfg.domain = false)
    (ht : jsFalsyStr cfg.storefrontAccessToken = false) :
    (initializeAndLoad ⟨Except.ok cfg, Except.ok prods⟩).products = prods.map mapProduct ∧
    (initializeAndLoad ⟨Except.ok cfg, Except.ok prods⟩).products.length = prods.length ∧
    (initializeAndLoad ⟨Except.ok cfg, Except.ok prods⟩).featured
      = (prods.map mapProduct).take 3 ∧
    (initializeAndLoad ⟨Except.ok cfg, Except.ok prods⟩).featured.length
      = min prods.length 3 ∧
    (initializeAndLoad ⟨Except.ok cfg, Except.ok prods⟩).configError = false ∧
    (prods = [] →
      (renderShop (initializeAndLoad ⟨Except.ok cfg, Except.ok prods⟩)).showNoProducts
          = true ∧
      (renderShop (initializeAndLoad ⟨Except.ok cfg, Except.ok prods⟩)).cards = []) := by
  have hcond : (jsFalsyStr cfg.domain || jsFalsyStr cfg.storefrontAccessToken) = false := by
    rw [hd, ht]
    rfl
  refine ⟨?_, ?_, ?_, ?_, ?_, fun h => ?_⟩
  · simp only [initializeAndLoad]
    rw [hcond]
    simp
  · simp only [initializeAndLoad]
    rw [hcond]
    simp
  · simp only [initializeAndLoad]
    rw [hcond]
    simp
  · simp only [initializeAndLoad]
    rw [hcond]
    simp [List.length_take, Nat.min_comm]
  · simp only [initializeAndLoad]
    rw [hcond]
    simp
  · subst h
    simp only [initializeAndLoad, renderShop]
    rw [hcond]
    simp

/-- C1 witness: a successful bootstrap with a valid config and an empty
catalog renders the no-products indicator. -/
theorem c1_catalog_partition_witness :
    (initializeAndLoad ⟨Except.ok ⟨some "shop.myshopify.com", some "tok"⟩,
        Except.ok []⟩).products = ([] : List RawProduct).map mapProduct ∧
    (initializeAndLoad ⟨Except.ok ⟨some "shop.myshopify.com", some "tok"⟩,
        Except.ok []⟩).products.length = ([] : List RawProduct).length ∧
    (initializeAndLoad ⟨Except.ok ⟨some "shop.myshopify.com", some "tok"⟩,
        Except.ok []⟩).featured = (([] : List RawProduct).map mapProduct).take 3 ∧
    (initializeAndLoad ⟨Except.ok ⟨some "shop.myshopify.com", some "tok"⟩,
        Except.ok []⟩).featured.length = min ([] : List RawProduct).length 3 ∧
    (initializeAndLoad ⟨Except.ok ⟨some "shop.myshopify.com", some "tok"⟩,
        Except.ok []⟩).configError = false ∧
    (([] : List RawProduct) = [] →
      (renderShop (initializeAndLoad ⟨Except.ok ⟨some "shop.myshopify.com", some "tok"⟩,
          Except.ok []⟩)).showNoProducts = true ∧
      (renderShop (initializeAndLoad ⟨Except.ok ⟨some "shop.myshopify.com", some "tok"⟩,
          Except.ok []⟩)).cards = []) :=
  c1_catalog_partition ⟨some "shop.myshopify.com", some "tok"⟩ [] (by decide) (by decide)

/-- C2: a config whose domain or token is falsy (empty or missing)
drives the bootstrap to the terminal configuration-error state without
constructing the client and without attempting the catalog fetch, and
the outcome is identical to the outcome on a fully absent config. -/
theorem c2_config_error_guard (cfg : StoreConfig) (cat : Except String (List RawProduct))
    (h : jsFalsyStr cfg.domain = true ∨ jsFalsyStr cfg.storefrontAccessToken = true) :
    (initializeAndLoad ⟨Except.ok cfg, cat⟩).configError = true ∧
    (initializeAndLoad ⟨Except.ok cfg, cat⟩).clientConstructed = false ∧
    (initializeAndLoad ⟨Except.ok cfg, cat⟩).client = none ∧
    (initializeAndLoad ⟨Except.ok cfg, cat⟩).catalogFetchAttempted = false ∧
    initializeAndLoad ⟨Except.ok cfg, cat⟩ =
      initializeAndLoad ⟨Except.ok ⟨none, none⟩, cat⟩ := by
  have hcond : (jsFalsyStr cfg.domain || jsFalsyStr cfg.storefrontAccessToken) = true := by
    rcases h with h | h <;> simp [h]
  simp only [initializeAndLoad]
  rw [hcond]
  simp [jsFalsyStr]

/-- C2 witness: a config with an empty domain but a present token (the
partially populated case) hits the guard. -/
theorem c2_config_error_guard_witness :
    (initializeAndLoad ⟨Except.ok ⟨some "", some "tok"⟩, Except.ok []⟩).configError = true ∧
    (initializeAndLoad ⟨Except.ok ⟨some "", some "tok"⟩,
        Except.ok []⟩).clientConstructed = false ∧
    (initializeAndLoad ⟨Except.ok ⟨some "", some "tok"⟩, Except.ok []⟩).client = none ∧
    (initializeAndLoad ⟨Except.ok ⟨some "", some "tok"⟩,
        Except.ok []⟩).catalogFetchAttempted = false ∧
    initializeAndLoad ⟨Except.ok ⟨some "", some "tok"⟩, Except.ok []⟩ =
      initializeAndLoad ⟨Except.ok ⟨none, none⟩, Except.ok []⟩ :=
  c2_config_error_guard ⟨some "", some "tok"⟩ (Except.ok []) (Or.inl (by decide))

/-- C10: whenever a bootstrap run ends with the configuration-error
flag set — from a config-fetch throw, a falsy config field, or a
catalog-fetch/mapping throw — the products and featured lists are the
initial empty lists: no partially mapped catalog is exposed. -/
theorem c10_no_partial_catalog (env : BootstrapEnv)
    (h : (initializeAndLoad env).configError = true) :
    (initializeAndLoad env).products = [] ∧ (initializeAndLoad env).featured = [] := by
  obtain ⟨fc, fcat⟩ := env
  cases fc with
  | error e => simp [initializeAndLoad]
  | ok config =>
    by_cases hc : (jsFalsyStr config.domain || jsFalsyStr config.storefrontAccessToken) = true
    · simp only [initializeAndLoad]
      rw [hc]
      simp
    · rw [Bool.not_eq_true] at hc
      cases fcat with
      | error e =>
        simp only [initializeAndLoad]
        rw [hc]
        simp
      | ok prods =>
        simp only [initializeAndLoad] at h
        rw [hc] at h
        simp at h

/-- C10 witness: a bootstrap whose config fetch throws ends in the
error state with both lists empty. -/
theorem c10_no_partial_catalog_witness :
    (initializeAndLoad ⟨Except.error "network down", Except.ok []⟩).products = [] ∧
    (initializeAndLoad ⟨Except.error "network down", Except.ok []⟩).featured = [] :=
  c10_no_partial_catalog ⟨Except.error "network down", Except.ok []⟩ rfl

/-- C4: with a client present and a collaborator whose two operations
resolve, one checkout invocation makes exactly one session-create call
and exactly one line-item-add call carrying `[{variantId, quantity: 1}]`,
and navigates the browser to the web URL of the session returned by
the line-item-add call. -/
theorem c4_checkout_success (cl : ClientHandle) (env : CheckoutEnv) (variantId : String)
    (c u : Checkout) (hc : env.create = Except.ok c)
    (ha : env.addLineItems c.id [⟨variantId, 1⟩] = Except.ok u) :
    startCheckout (some cl) env variantId 1 =
      { createCalls := 1, addCalls := [(c.id, [⟨variantId, 1⟩])]
        navigatedTo := some u.webUrl, alerted := none, logged := none } := by
  simp [startCheckout, hc, ha]

/-- C4 witness: a concrete succeeding collaborator yields one create,
one add with quantity 1, and navigation to the returned URL. -/
theorem c4_checkout_success_witness :
    startCheckout (some ⟨"shop.myshopify.com", "tok", "2024-01"⟩)
        ⟨Except.ok ⟨"sess-1", "https://pay.example/sess-1"⟩,
          fun sid _ => Except.ok ⟨sid, "https://pay.example/final"⟩⟩ "variant-42" 1 =
      { createCalls := 1, addCalls := [("sess-1", [⟨"variant-42", 1⟩])]
        navigatedTo := some "https://pay.example/final", alerted := none, logged := none } :=
  c4_checkout_success ⟨"shop.myshopify.com", "tok", "2024-01"⟩
    ⟨Except.ok ⟨"sess-1", "https://pay.example/sess-1"⟩,
      fun sid _ => Except.ok ⟨sid, "https://pay.example/final"⟩⟩
    "variant-42" ⟨"sess-1", "https://pay.example/sess-1"⟩
    ⟨"sess-1", "https://pay.example/final"⟩ rfl rfl

/-- C6: if the session-create call or the line-item-add call rejects,
the browser is not navigated, the failure alert is shown, the
underlying cause is logged, and no retry happens (at most one call to
each operation). -/
theorem c6_checkout_failure (cl : ClientHandle) (env : CheckoutEnv)
    (variantId : String) (qty : Nat)
    (h : (∃ e, env.create = Except.error e) ∨
      (∃ c e, env.create = Except.ok c ∧
        env.addLineItems c.id [⟨variantId, qty⟩] = Except.error e)) :
    (startCheckout (some cl) env variantId qty).navigatedTo = none ∧
    (startCheckout (some cl) env variantId qty).alerted =
      some "Could not start checkout. Check console for details." ∧
    (∃ e, (startCheckout (some cl) env variantId qty).logged = some e) ∧
    (startCheckout (some cl) env variantId qty).createCalls = 1 ∧
    (startCheckout (some cl) env variantId qty).addCalls.length ≤ 1 := by
  rcases h with ⟨e, he⟩ | ⟨c, e, hc, ha⟩
  · simp [startCheckout, he]
  · simp [startCheckout, hc, ha]

/-- C6 witness: a collaborator whose session-create call rejects leads
to no navigation, the alert, and a logged cause. -/
theorem c6_checkout_failure_witness :
    (startCheckout (some ⟨"shop.myshopify.com", "tok", "2024-01"⟩)
        ⟨Except.error "network", fun _ _ => Except.error "unreachable"⟩
        "variant-42" 1).navigatedTo = none ∧
    (startCheckout (some ⟨"shop.myshopify.com", "tok", "2024-01"⟩)
        ⟨Except.error "network", fun _ _ => Except.error "unreachable"⟩
        "variant-42" 1).alerted =
      some "Could not start checkout. Check console for details." ∧
    (∃ e, (startCheckout (some ⟨"shop.myshopify.com", "tok", "2024-01"⟩)
        ⟨Except.error "network", fun _ _ => Except.error "unreachable"⟩
        "variant-42" 1).logged = some e) ∧
    (startCheckout (some ⟨"shop.myshopify.com", "tok", "2024-01"⟩)
        ⟨Except.error "network", fun _ _ => Except.error "unreachable"⟩
        "variant-42" 1).createCalls = 1 ∧
    (startCheckout (some ⟨"shop.myshopify.com", "tok", "2024-01"⟩)
        ⟨Except.error "network", fun _ _ => Except.error "unreachable"⟩
        "variant-42" 1).addCalls.length ≤ 1 :=
  c6_checkout_failure ⟨"shop.myshopify.com", "tok", "2024-01"⟩
    ⟨Except.error "network", fun _ _ => Except.error "unreachable"⟩
    "variant-42" 1 (Or.inl ⟨"network", rfl⟩)

/-- If the pattern is a prefix of the input, `firstReplace` replaces
exactly that leading occurrence. -/
theorem firstReplace_prefix (pat rep rest : List Char) (hp : pat ≠ []) :
    firstReplace pat rep (pat ++ rest) = rep ++ rest := by
  cases pat with
  | nil => exact absurd rfl hp
  | cons p ps =>
    have hpre : (p :: ps).isPrefixOf (p :: (ps ++ rest)) = true := by
      rw [← List.cons_append, List.isPrefixOf_iff_prefix]
      exact List.prefix_append _ _
    have hdrop : (p :: (ps ++ rest)).drop (p :: ps).length = rest := by
      simp only [List.length_cons, List.drop_succ_cons, List.drop_left]
    rw [List.cons_append, firstReplace, hpre]
    simp [hdrop]

/-- If the pattern does not occur in the input, `firstReplace` leaves
the input unchanged. -/
theorem firstReplace_not_contains (pat rep l : List Char)
    (h : containsSub pat l = false) : firstReplace pat rep l = l := by
  induction l with
  | nil => rfl
  | cons c cs ih =>
    simp only [containsSub, Bool.or_eq_false_iff] at h
    rw [firstReplace, h.1]
    simp [ih h.2]

/-- C8 counterexample: the claim says any URL scheme prefix is stripped
before client construction, but the code only replaces the literal
`"https://"`: the domain `"http://shop.example.com"` is passed through
unchanged, differing from the spec's scheme-stripped form. -/
theorem c8_scheme_counterexample :
    (buildClient "http://shop.example.com" "tok").domain = "http://shop.example.com" ∧
    stripSchemeSpec "http://shop.example.com" = "shop.example.com" ∧
    (buildClient "http://shop.example.com" "tok").domain ≠
      stripSchemeSpec "http://shop.example.com" := by
  decide

/-- C8 (amended): the constructed client's domain is the configured
domain with only the first occurrence of the literal substring
`"https://"` removed; a domain beginning with `"https://"` loses that
prefix, while a domain not containing `"https://"` at all — including
one with another scheme such as `"http://"` — is used unchanged. -/
theorem c8_strip_scheme_amended (rest token d2 t2 : String)
    (h : containsSub "https://".data d2.data = false) :
    (buildClient ("https://" ++ rest) token).domain = rest ∧
    (buildClient d2 t2).domain = d2 := by
  constructor
  · show String.mk (firstReplace "https://".data "".data ("https://" ++ rest).data) = rest
    have hdata : ("https://" ++ rest).data = "https://".data ++ rest.data := rfl
    have hnil : "".data = ([] : List Char) := rfl
    rw [hdata, firstReplace_prefix _ _ _ (by decide), hnil, List.nil_append]
  · show String.mk (firstReplace "https://".data "".data d2.data) = d2
    rw [firstReplace_not_contains _ _ _ h]

/-- C8 witness: the amended statement at a `"https://"`-prefixed domain
and at an `"http://"`-prefixed one. -/
theorem c8_strip_scheme_amended_witness :
    (buildClient ("https://" ++ "shop.myshopify.com") "tok").domain = "shop.myshopify.com" ∧
    (buildClient "http://shop.example.com" "tok2").domain = "http://shop.example.com" :=
  c8_strip_scheme_amended "shop.myshopify.com" "tok" "http://shop.example.com" "tok2"
    (by decide)
